import Mathlib

/-!
Shallow embedding of `src/PalateAIPublic/AIMain/main.py` (FoodAI).

The program is an interactive menu loop (`food_ingredients_chat`) over a
remote generative-AI chat session.  We embed one iteration of the loop as a
pure function of the mutable state (`last_food_item`, `last_dish_description`,
the chat history), the user's console inputs for that iteration, and the
outcome of the remote calls (given as environment parameters, since the
remote service is external).  Startup configuration loading
(`initialize_genai`, modelled here as `init_genai`) is embedded as a function
of the outcome of reading and parsing `keys.json`.
-/

namespace FoodAI

/-- Kinds of `google.api_core.exceptions` handled by the per-option
`except` clauses in `food_ingredients_chat` (lines 140-173, 197-230,
259-292 of main.py). -/
inductive ApiError where
  | deadlineExceeded
  | invalidArgument
  | permissionDenied
  | notFound
  | resourceExhausted
  | unknown
  | serviceUnavailable
deriving DecidableEq, Repr

/-- Outcome of a `chat.send_message` call on the main chat session:
either a successful response with its text, or a raised API exception. -/
inductive ChatResult where
  | ok (text : String)
  | err (e : ApiError)
deriving DecidableEq, Repr

/-- Outcome of the remote/file work inside `analyze_image_with_gemini`:
the `open` may raise `FileNotFoundError`, the remote call may raise an
API exception or any other exception, or it returns a response text. -/
inductive ImageResult where
  | fileNotFound
  | apiError (e : ApiError)
  | otherError
  | ok (text : String)
deriving DecidableEq, Repr

/-- Result of one iteration of the `while True` loop: either control flows
back to the menu (`continue` / fallthrough), or `sys.exit(code)` is reached. -/
inductive TurnOutcome where
  | continueLoop
  | exit (code : Nat)
deriving DecidableEq, Repr

/-- The mutable state of `food_ingredients_chat`: the `last_food_item` and
`last_dish_description` variables (both start as `None`) and the history of
the single chat session created at line 108 (modelled as the list of
messages exchanged on it, in order). -/
structure ChatState where
  lastFoodItem : Option String
  lastDishDescription : Option String
  history : List String
deriving DecidableEq, Repr

/-- The state at the start of `food_ingredients_chat` (lines 108-111):
fresh chat history, `last_food_item = None`, `last_dish_description = None`. -/
def initChatState : ChatState := ⟨none, none, []⟩

/-- The console inputs a single loop iteration can consume.  Fields not
read by the chosen option are simply ignored, like unread prompts. -/
structure TurnInput where
  option : String
  useLast : String
  foodInput : String
  dishInput : String
  ingredientInput : String
  descriptionInput : String
  imageInput : String
deriving DecidableEq, Repr

/-- Observable result of one loop iteration.  `sentQuery` is the query
submitted to the main chat session this turn (`none` when validation
rejected the input before `chat.send_message`); `imageCalled` records
whether `analyze_image_with_gemini` was invoked; `sessionsCreated` counts
chat sessions created during the turn (line 91 creates one per image
analysis); `promptedFoodName` records whether the user was prompted to type
a food/dish name (as opposed to reusing `last_food_item`); `rejectMsg` is
the validation error printed when the turn was rejected. -/
structure TurnResult where
  outcome : TurnOutcome
  lastFoodItem : Option String
  lastDishDescription : Option String
  history : List String
  sentQuery : Option String
  imageCalled : Bool
  sessionsCreated : Nat
  promptedFoodName : Bool
  rejectMsg : Option String
deriving DecidableEq, Repr

/-- Python whitespace characters (ASCII range), as used by `str.isspace`. -/
def pyIsSpaceChar (c : Char) : Bool :=
  c = ' ' || c = '\t' || c = '\n' || c = '\r' || c = '\x0b' || c = '\x0c'

/-- Python `s.isspace()`: true iff `s` is non-empty and all characters are
whitespace.  Characters are traversed through `String.data` so that the
definition reduces inside the kernel. -/
def pyIsSpace (s : String) : Bool :=
  s != "" && s.data.all pyIsSpaceChar

/-- Python `s.lower()` (ASCII range), traversing `String.data`. -/
def pyLower (s : String) : String :=
  ⟨s.data.map Char.toLower⟩

/-- The validation test used at lines 130, 187 and 237:
`s == "" or s.isspace()`. -/
def emptyOrSpace (s : String) : Bool :=
  s == "" || pyIsSpace s

/-- Python truthiness of the `last_food_item` variable (`if last_food_item:`):
false for `None` and for the empty string. -/
def pyTruthy : Option String → Bool
  | none => false
  | some s => s != ""

/-- Reuse logic of options 1 and 2 (lines 121-128, 176-183): if
`last_food_item` is truthy and the user answers "yes" (case-insensitively)
to the reuse prompt, the stored value is used; otherwise the user is
prompted and the typed value (`fallback`) is used. -/
def resolveReuse (last : Option String) (useLast fallback : String) : String :=
  if pyTruthy last && pyLower useLast == "yes" then last.getD "" else fallback

/-- Whether the logic of lines 121-128 prompts the user to type a name
(true in every case except a truthy `last_food_item` plus a "yes" answer). -/
def reusePrompts (last : Option String) (useLast : String) : Bool :=
  !(pyTruthy last && pyLower useLast == "yes")

/-- Query template of option 1 (line 135). -/
def buildQuery1 (food : String) : String :=
  "What are the detailed and specific ingredients of " ++ food ++
    "? Include any sub-ingredients and specific types of ingredients used."

/-- Query template of option 2 (line 192). -/
def buildQuery2 (dish ingredient : String) : String :=
  "Does " ++ dish ++ " contain " ++ ingredient ++
    "? Provide detailed information on how this ingredient is used in the dish if present."

/-- Query template of option 3 (lines 247-252). -/
def buildQuery3 (food desc : String) : String :=
  "Analyze the food item \x27" ++ food ++ "\x27. " ++ desc ++
    ". Does it contain meat, seafood, red meat, poultry, other meat, eggs, dairy, honey, seafood, milk, fish, shellfish, tree nuts, peanuts, soy? " ++
    "Provide the response as \x271\x27 for yes and \x270\x27 for no. " ++
    "Also, indicate if it is high, medium, or low in wheat, gluten, lactose, paleo, sugar, carbs, protein, fat, calories."

/-- Mapping from a raised API exception to control flow, identical in all
three option branches: `DeadlineExceeded` hits a `continue`; every other
handled kind reaches `sys.exit(1)`. -/
def errOutcome : ApiError → TurnOutcome
  | .deadlineExceeded => .continueLoop
  | _ => .exit 1

/-- Embedding of `analyze_image_with_gemini` (lines 83-102): a missing
file, an API exception and any other exception are all caught inside the
function (`except FileNotFoundError` / `except Exception`), a message is
printed and `None` is returned; on success `response.text` is returned. -/
def analyze_image_with_gemini : ImageResult → Option String
  | .ok t => some t
  | .fileNotFound => none
  | .apiError _ => none
  | .otherError => none

/-- Option 1 branch (lines 120-173): resolve the food name (possibly
reusing `last_food_item`), validate it, build the ingredients query, send
it, and map any exception via the shared handler ladder.  Neither
`last_food_item` nor `last_dish_description` is assigned in this branch. -/
def runOption1 (st : ChatState) (inp : TurnInput) (cr : ChatResult) : TurnResult :=
  let food := resolveReuse st.lastFoodItem inp.useLast inp.foodInput
  let prompted := reusePrompts st.lastFoodItem inp.useLast
  if emptyOrSpace food then
    { outcome := .continueLoop, lastFoodItem := st.lastFoodItem,
      lastDishDescription := st.lastDishDescription, history := st.history,
      sentQuery := none, imageCalled := false, sessionsCreated := 0,
      promptedFoodName := prompted,
      rejectMsg := some "The food item is empty. Please try again.\n" }
  else
    match cr with
    | .ok t =>
      { outcome := .continueLoop, lastFoodItem := st.lastFoodItem,
        lastDishDescription := st.lastDishDescription,
        history := st.history ++ [buildQuery1 food, t],
        sentQuery := some (buildQuery1 food), imageCalled := false,
        sessionsCreated := 0, promptedFoodName := prompted, rejectMsg := none }
    | .err e =>
      { outcome := errOutcome e, lastFoodItem := st.lastFoodItem,
        lastDishDescription := st.lastDishDescription, history := st.history,
        sentQuery := some (buildQuery1 food), imageCalled := false,
        sessionsCreated := 0, promptedFoodName := prompted, rejectMsg := none }

/-- Option 2 branch (lines 175-230): resolve the dish name (possibly
reusing `last_food_item`), prompt for the ingredient, validate both, build
the membership query, send it.  No state variable is assigned here either. -/
def runOption2 (st : ChatState) (inp : TurnInput) (cr : ChatResult) : TurnResult :=
  let dish := resolveReuse st.lastFoodItem inp.useLast inp.dishInput
  let prompted := reusePrompts st.lastFoodItem inp.useLast
  if emptyOrSpace dish || emptyOrSpace inp.ingredientInput then
    { outcome := .continueLoop, lastFoodItem := st.lastFoodItem,
      lastDishDescription := st.lastDishDescription, history := st.history,
      sentQuery := none, imageCalled := false, sessionsCreated := 0,
      promptedFoodName := prompted,
      rejectMsg := some "Dish or ingredient input is empty. Please try again.\n" }
  else
    match cr with
    | .ok t =>
      { outcome := .continueLoop, lastFoodItem := st.lastFoodItem,
        lastDishDescription := st.lastDishDescription,
        history := st.history ++ [buildQuery2 dish inp.ingredientInput, t],
        sentQuery := some (buildQuery2 dish inp.ingredientInput),
        imageCalled := false, sessionsCreated := 0,
        promptedFoodName := prompted, rejectMsg := none }
    | .err e =>
      { outcome := errOutcome e, lastFoodItem := st.lastFoodItem,
        lastDishDescription := st.lastDishDescription, history := st.history,
        sentQuery := some (buildQuery2 dish inp.ingredientInput),
        imageCalled := false, sessionsCreated := 0,
        promptedFoodName := prompted, rejectMsg := none }

/-- Option 3 branch (lines 232-292): prompt for food, description and
image path; validate the food name (lines 237-239, before the image block);
if an image path was given, call `analyze_image_with_gemini` (which creates
a fresh chat session at line 91) and append truthy extracted text to the
description; build the analysis query and send it; on success assign
`last_food_item` and `last_dish_description` (lines 256-257), on an
exception skip those assignments. -/
def runOption3 (st : ChatState) (inp : TurnInput) (cr : ChatResult)
    (ir : ImageResult) : TurnResult :=
  if emptyOrSpace inp.foodInput then
    { outcome := .continueLoop, lastFoodItem := st.lastFoodItem,
      lastDishDescription := st.lastDishDescription, history := st.history,
      sentQuery := none, imageCalled := false, sessionsCreated := 0,
      promptedFoodName := true,
      rejectMsg := some "The food item is empty. Please try again.\n" }
  else
    let doImage := inp.imageInput != ""
    let description :=
      if doImage then
        match analyze_image_with_gemini ir with
        | some t => if t != "" then inp.descriptionInput ++ " " ++ t
                    else inp.descriptionInput
        | none => inp.descriptionInput
      else inp.descriptionInput
    let sessions := if doImage then 1 else 0
    let query := buildQuery3 inp.foodInput description
    match cr with
    | .ok t =>
      { outcome := .continueLoop, lastFoodItem := some inp.foodInput,
        lastDishDescription := some description,
        history := st.history ++ [query, t],
        sentQuery := some query, imageCalled := doImage,
        sessionsCreated := sessions, promptedFoodName := true,
        rejectMsg := none }
    | .err e =>
      { outcome := errOutcome e, lastFoodItem := st.lastFoodItem,
        lastDishDescription := st.lastDishDescription, history := st.history,
        sentQuery := some query, imageCalled := doImage,
        sessionsCreated := sessions, promptedFoodName := true,
        rejectMsg := none }

/-- One iteration of the `while True` loop of `food_ingredients_chat`
(lines 113-295): dispatch on the menu option; any other input prints
"Invalid option" and loops. -/
def runTurn (st : ChatState) (inp : TurnInput) (cr : ChatResult)
    (ir : ImageResult) : TurnResult :=
  if inp.option == "1" then runOption1 st inp cr
  else if inp.option == "2" then runOption2 st inp cr
  else if inp.option == "3" then runOption3 st inp cr ir
  else
    { outcome := .continueLoop, lastFoodItem := st.lastFoodItem,
      lastDishDescription := st.lastDishDescription, history := st.history,
      sentQuery := none, imageCalled := false, sessionsCreated := 0,
      promptedFoodName := false,
      rejectMsg := some "Invalid option. Please enter 1, 2, or 3.\n" }

/-- The parsed content of `keys.json` as far as `initialize_genai` reads it:
each recognized key is present or absent (absence makes the `content[...]`
lookup raise `KeyError`).  The values of the non-string-compared keys are
opaque to the program, so they are modelled as strings. -/
structure ConfigJson where
  geminiApiKey : Option String
  geminiModel : Option String
  safetySettings : Option String
  generationConfig : Option String
deriving DecidableEq, Repr

/-- Outcome of opening and JSON-parsing `keys.json`: the `open` may raise
`FileNotFoundError`, `json.load` may raise `JSONDecodeError`, or parsing
succeeds. -/
inductive ConfigLoad where
  | fileNotFound
  | parseError
  | parsed (cfg : ConfigJson)
deriving DecidableEq, Repr

/-- The model object built at lines 53-57 on a successful startup. -/
structure ModelConfig where
  modelName : String
  safetySettings : String
  generationConfig : String
  apiKey : String
deriving DecidableEq, Repr

/-- Result of startup: `sys.exit(code)` after printing `msgs`, or a
configured model object. -/
inductive InitResult where
  | exitWith (code : Nat) (msgs : List String)
  | ok (m : ModelConfig)
deriving DecidableEq, Repr

/-- The message printed at line 42 for a missing `keys.json`. -/
def msgMissingFile : String :=
  "Could not find the configuration file \x27keys.json\x27. Ensure it exists"

/-- The message printed at line 46 for an unparseable `keys.json`. -/
def msgParseError : String :=
  "Error: Could not parse the key file \x27keys.json\x27. Please check the file format."

/-- The message printed at line 50 for a `KeyError` on key `k`. -/
def msgMissingKey (k : String) : String :=
  "Error: Missing key \x27" ++ k ++ "\x27 in \x27keys.json\x27 file."

/-- The placeholder value checked at line 28. -/
def placeholderKey : String := "your gemini api key here"

/-- The three instruction lines printed at lines 29-31 when the API key is
still the placeholder. -/
def placeholderMsgs : List String :=
  ["To use the Gemini API, you\x27ll need an API key.",
   "Create a key in Google AI Studio.",
   "Save the key to \x27keys.json\x27 file."]

/-- Embedding of `initialize_genai` (lines 17-59 of main.py, renamed to
stay within the development's lexical conventions).  Key lookups follow the
source order: `GEMINI_API_KEY` (line 26), then the placeholder check
(lines 28-33, exiting before any other key is read), then `GEMINI_MODEL`,
`SAFETY_SETTINGS` and `GENERATION_CONFIG` (lines 35-37); a missing key
raises `KeyError`, caught at line 49.  `sys.exit(1)` inside the `try` is a
`SystemExit`, which none of the `except` clauses catch. -/
def init_genai : ConfigLoad → InitResult
  | .fileNotFound => .exitWith 1 [msgMissingFile]
  | .parseError => .exitWith 1 [msgParseError]
  | .parsed cfg =>
    match cfg.geminiApiKey with
    | none => .exitWith 1 [msgMissingKey "GEMINI_API_KEY"]
    | some key =>
      if key = placeholderKey then
        .exitWith 1 placeholderMsgs
      else
        match cfg.geminiModel with
        | none => .exitWith 1 [msgMissingKey "GEMINI_MODEL"]
        | some gm =>
          match cfg.safetySettings with
          | none => .exitWith 1 [msgMissingKey "SAFETY_SETTINGS"]
          | some ss =>
            match cfg.generationConfig with
            | none => .exitWith 1 [msgMissingKey "GENERATION_CONFIG"]
            | some gc => .ok ⟨gm, ss, gc, key⟩

/-- Environment of one loop iteration: the console inputs together with the
outcomes the remote service would give to this turn's main-chat call and
image-analysis call. -/
structure TurnEnv where
  inp : TurnInput
  chatRes : ChatResult
  imgRes : ImageResult
deriving DecidableEq, Repr

/-- Whole-program loop state used to count chat sessions: the chat state,
the number of chat sessions created so far (the session of line 108 plus
one per image analysis at line 91), and the exit code once a `sys.exit`
has been reached. -/
structure LoopState where
  chat : ChatState
  sessions : Nat
  exited : Option Nat
deriving DecidableEq, Repr

/-- The loop state just after line 108: one session exists, fresh state. -/
def initLoopState : LoopState := ⟨initChatState, 1, none⟩

/-- One step of the whole-program loop: once the process has exited,
nothing further happens; otherwise run one turn and fold its effects into
the loop state. -/
def stepLoop (ls : LoopState) (env : TurnEnv) : LoopState :=
  match ls.exited with
  | some _ => ls
  | none =>
    let r := runTurn ls.chat env.inp env.chatRes env.imgRes
    { chat := ⟨r.lastFoodItem, r.lastDishDescription, r.history⟩,
      sessions := ls.sessions + r.sessionsCreated,
      exited := match r.outcome with
                | .continueLoop => none
                | .exit c => some c }

/-- The whole program run on a finite list of turn environments. -/
def runProgram (envs : List TurnEnv) : LoopState :=
  envs.foldl stepLoop initLoopState

/-! Helper lemmas shared by several claims. -/

theorem runOption1_frame (st : ChatState) (inp : TurnInput) (cr : ChatResult) :
    (runOption1 st inp cr).lastFoodItem = st.lastFoodItem ∧
    (runOption1 st inp cr).lastDishDescription = st.lastDishDescription := by
  cases cr <;> simp only [runOption1] <;> split <;> exact ⟨rfl, rfl⟩

theorem runOption2_frame (st : ChatState) (inp : TurnInput) (cr : ChatResult) :
    (runOption2 st inp cr).lastFoodItem = st.lastFoodItem ∧
    (runOption2 st inp cr).lastDishDescription = st.lastDishDescription := by
  cases cr <;> simp only [runOption2] <;> split <;> exact ⟨rfl, rfl⟩

/-- A non-3 menu choice dispatches to option 1, option 2 or the
invalid-option branch. -/
theorem runTurn_ne3 (st : ChatState) (inp : TurnInput) (cr : ChatResult)
    (ir : ImageResult) (h : inp.option ≠ "3") :
    runTurn st inp cr ir = runOption1 st inp cr ∨
    runTurn st inp cr ir = runOption2 st inp cr ∨
    runTurn st inp cr ir =
      { outcome := .continueLoop, lastFoodItem := st.lastFoodItem,
        lastDishDescription := st.lastDishDescription, history := st.history,
        sentQuery := none, imageCalled := false, sessionsCreated := 0,
        promptedFoodName := false,
        rejectMsg := some "Invalid option. Please enter 1, 2, or 3.\n" } := by
  unfold runTurn
  by_cases h1 : inp.option == "1"
  · simp [h1]
  · by_cases h2 : inp.option == "2"
    · simp [h1, h2]
    · have h3 : (inp.option == "3") = false := by
        simpa using h
      simp [h1, h2, h3]

/-- Claim C1: on an option-3 turn, a completed remote call sets
`last_food_item` to exactly the submitted food name, and a raised API
exception leaves `last_food_item` with its previous value. -/
theorem c1_option3_last_food_item (st : ChatState) (inp : TurnInput)
    (ir : ImageResult) (h3 : inp.option = "3") :
    (∀ t q, (runTurn st inp (ChatResult.ok t) ir).sentQuery = some q →
        (runTurn st inp (ChatResult.ok t) ir).lastFoodItem = some inp.foodInput) ∧
    (∀ e, (runTurn st inp (ChatResult.err e) ir).lastFoodItem =
        st.lastFoodItem) := by
  unfold runTurn
  simp only [h3]
  norm_num
  unfold runOption3
  by_cases hv : emptyOrSpace inp.foodInput <;> simp [hv]

/-- Witness for C1 at a concrete turn. -/
theorem c1_option3_last_food_item_witness :
    (runTurn initChatState
        ⟨"3", "", "pizza", "", "", "desc", ""⟩
        (ChatResult.ok "resp") ImageResult.otherError).lastFoodItem =
      some "pizza" :=
  (c1_option3_last_food_item initChatState
      ⟨"3", "", "pizza", "", "", "desc", ""⟩
      ImageResult.otherError rfl).1 "resp" _ rfl

/-- Claim C5: turns of option 1 and option 2 (indeed, every turn other
than option 3) never change `last_food_item` or `last_dish_description`;
only option-3 turns write them. -/
theorem c5_options12_never_write (st : ChatState) (inp : TurnInput)
    (cr : ChatResult) (ir : ImageResult) (h : inp.option ≠ "3") :
    (runTurn st inp cr ir).lastFoodItem = st.lastFoodItem ∧
    (runTurn st inp cr ir).lastDishDescription = st.lastDishDescription := by
  rcases runTurn_ne3 st inp cr ir h with heq | heq | heq <;> rw [heq]
  · exact runOption1_frame st inp cr
  · exact runOption2_frame st inp cr
  · exact ⟨rfl, rfl⟩

/-- Witness for C5 at a concrete option-1 turn with a successful call. -/
theorem c5_options12_never_write_witness :
    (runTurn ⟨some "pizza", some "d", []⟩
        ⟨"1", "yes", "", "", "", "", ""⟩
        (ChatResult.ok "resp") ImageResult.otherError).lastFoodItem =
      some "pizza" :=
  (c5_options12_never_write ⟨some "pizza", some "d", []⟩
      ⟨"1", "yes", "", "", "", "", ""⟩
      (ChatResult.ok "resp") ImageResult.otherError (by decide)).1

/-- Claim C7: with `last_food_item` holding a valid name and the user
selecting option 1 and answering yes to the reuse prompt, the submitted
query is built from the stored name and the user is not prompted again for
a food name. -/
theorem c7_reuse_builds_from_stored (st : ChatState) (inp : TurnInput)
    (cr : ChatResult) (ir : ImageResult) (f : String)
    (hl : st.lastFoodItem = some f) (hv : emptyOrSpace f = false)
    (h1 : inp.option = "1") (hy : pyLower inp.useLast = "yes") :
    (runTurn st inp cr ir).sentQuery = some (buildQuery1 f) ∧
    (runTurn st inp cr ir).promptedFoodName = false := by
  have hf : (f != "") = true := by
    unfold emptyOrSpace at hv
    simp only [Bool.or_eq_false_iff] at hv
    simpa using hv.1
  have hres : resolveReuse st.lastFoodItem inp.useLast inp.foodInput = f := by
    unfold resolveReuse
    simp [hl, pyTruthy, hf, hy]
  have hpr : reusePrompts st.lastFoodItem inp.useLast = false := by
    unfold reusePrompts
    simp [hl, pyTruthy, hf, hy]
  unfold runTurn
  simp only [h1]
  norm_num
  unfold runOption1
  rw [hres, hpr]
  cases cr <;> simp [hv]

/-- Witness for C7: stored item "pizza", answer "yes". -/
theorem c7_reuse_builds_from_stored_witness :
    (runTurn ⟨some "pizza", none, []⟩
        ⟨"1", "yes", "typed", "", "", "", ""⟩
        (ChatResult.ok "resp") ImageResult.otherError).sentQuery =
      some (buildQuery1 "pizza") :=
  (c7_reuse_builds_from_stored ⟨some "pizza", none, []⟩
      ⟨"1", "yes", "typed", "", "", "", ""⟩
      (ChatResult.ok "resp") ImageResult.otherError "pizza"
      rfl (by decide) rfl (by decide)).1

/-- Claim C3: on every menu turn whose (resolved) food, dish or ingredient
input is empty or whitespace-only, the turn is rejected with a printed
message, control returns to the menu, and neither the main chat nor the
image-analysis endpoint is contacted. -/
theorem c3_empty_input_rejected (st : ChatState) (inp : TurnInput)
    (cr : ChatResult) (ir : ImageResult) :
    (inp.option = "1" →
      emptyOrSpace (resolveReuse st.lastFoodItem inp.useLast inp.foodInput) = true →
      (runTurn st inp cr ir).outcome = TurnOutcome.continueLoop ∧
      (runTurn st inp cr ir).sentQuery = none ∧
      (runTurn st inp cr ir).imageCalled = false ∧
      (runTurn st inp cr ir).rejectMsg.isSome = true) ∧
    (inp.option = "2" →
      (emptyOrSpace (resolveReuse st.lastFoodItem inp.useLast inp.dishInput) ||
        emptyOrSpace inp.ingredientInput) = true →
      (runTurn st inp cr ir).outcome = TurnOutcome.continueLoop ∧
      (runTurn st inp cr ir).sentQuery = none ∧
      (runTurn st inp cr ir).imageCalled = false ∧
      (runTurn st inp cr ir).rejectMsg.isSome = true) ∧
    (inp.option = "3" →
      emptyOrSpace inp.foodInput = true →
      (runTurn st inp cr ir).outcome = TurnOutcome.continueLoop ∧
      (runTurn st inp cr ir).sentQuery = none ∧
      (runTurn st inp cr ir).imageCalled = false ∧
      (runTurn st inp cr ir).rejectMsg.isSome = true) := by
  refine ⟨fun h1 hv => ?_, fun h2 hv => ?_, fun h3 hv => ?_⟩
  · unfold runTurn
    simp only [h1]
    norm_num
    unfold runOption1
    simp [hv]
  · unfold runTurn
    simp only [h2]
    norm_num
    unfold runOption2
    rcases Bool.or_eq_true_iff.mp hv with h | h <;> simp [h]
  · unfold runTurn
    simp only [h3]
    norm_num
    unfold runOption3
    simp [hv]

/-- Witness for C3: an option-3 turn with a whitespace food name is
rejected without any remote contact. -/
theorem c3_empty_input_rejected_witness :
    (runTurn initChatState ⟨"3", "", "  ", "", "", "d", "img.png"⟩
        (ChatResult.ok "resp") (ImageResult.ok "txt")).sentQuery = none ∧
    (runTurn initChatState ⟨"3", "", "  ", "", "", "d", "img.png"⟩
        (ChatResult.ok "resp") (ImageResult.ok "txt")).imageCalled = false :=
  ⟨((c3_empty_input_rejected initChatState ⟨"3", "", "  ", "", "", "d", "img.png"⟩
      (ChatResult.ok "resp") (ImageResult.ok "txt")).2.2 rfl (by decide)).2.1,
   ((c3_empty_input_rejected initChatState ⟨"3", "", "  ", "", "", "d", "img.png"⟩
      (ChatResult.ok "resp") (ImageResult.ok "txt")).2.2 rfl (by decide)).2.2.1⟩

/-- Claim C4: on an option-3 turn with a valid food name and an image path
supplied, any failure of the image-analysis sub-operation (missing file,
API exception, any other exception) yields no extracted text, and the main
analysis query is built from the original user description unmodified; the
turn completes normally when the main call succeeds. -/
theorem c4_image_errors_local (st : ChatState) (inp : TurnInput)
    (cr : ChatResult) (ir : ImageResult)
    (h3 : inp.option = "3") (hv : emptyOrSpace inp.foodInput = false)
    (himg : inp.imageInput ≠ "")
    (herr : analyze_image_with_gemini ir = none) :
    (runTurn st inp cr ir).sentQuery =
      some (buildQuery3 inp.foodInput inp.descriptionInput) ∧
    (runTurn st inp cr ir).imageCalled = true ∧
    (∀ t, cr = ChatResult.ok t →
      (runTurn st inp cr ir).outcome = TurnOutcome.continueLoop) := by
  unfold runTurn
  simp only [h3]
  norm_num
  unfold runOption3
  rw [hv]
  cases cr <;> simp [herr, himg]

/-- Witness for C4: missing image file, successful main call. -/
theorem c4_image_errors_local_witness :
    (runTurn initChatState ⟨"3", "", "pizza", "", "", "homemade", "no/such.png"⟩
        (ChatResult.ok "resp") ImageResult.fileNotFound).sentQuery =
      some (buildQuery3 "pizza" "homemade") ∧
    (runTurn initChatState ⟨"3", "", "pizza", "", "", "homemade", "no/such.png"⟩
        (ChatResult.ok "resp") ImageResult.fileNotFound).outcome =
      TurnOutcome.continueLoop := by
  have h := c4_image_errors_local initChatState
      ⟨"3", "", "pizza", "", "", "homemade", "no/such.png"⟩
      (ChatResult.ok "resp") ImageResult.fileNotFound
      rfl (by decide) (by decide) rfl
  exact ⟨h.1, h.2.2 "resp" rfl⟩

/-- On an option-1 turn whose main call raises `e`, either validation
rejected the input (nothing was sent) or the outcome is `errOutcome e`. -/
theorem runOption1_err (st : ChatState) (inp : TurnInput) (e : ApiError) :
    (runOption1 st inp (ChatResult.err e)).sentQuery = none ∨
    (runOption1 st inp (ChatResult.err e)).outcome = errOutcome e := by
  simp only [runOption1]
  split
  · exact Or.inl rfl
  · exact Or.inr rfl

/-- Option-2 analogue of `runOption1_err`. -/
theorem runOption2_err (st : ChatState) (inp : TurnInput) (e : ApiError) :
    (runOption2 st inp (ChatResult.err e)).sentQuery = none ∨
    (runOption2 st inp (ChatResult.err e)).outcome = errOutcome e := by
  simp only [runOption2]
  split
  · exact Or.inl rfl
  · exact Or.inr rfl

/-- Option-3 analogue of `runOption1_err`. -/
theorem runOption3_err (st : ChatState) (inp : TurnInput) (e : ApiError)
    (ir : ImageResult) :
    (runOption3 st inp (ChatResult.err e) ir).sentQuery = none ∨
    (runOption3 st inp (ChatResult.err e) ir).outcome = errOutcome e := by
  simp only [runOption3]
  split
  · exact Or.inl rfl
  · exact Or.inr rfl

/-- Any turn whose main-chat call raises `e` either sent nothing or ends
with the shared handler ladder's outcome `errOutcome e`. -/
theorem runTurn_err (st : ChatState) (inp : TurnInput) (e : ApiError)
    (ir : ImageResult) :
    (runTurn st inp (ChatResult.err e) ir).sentQuery = none ∨
    (runTurn st inp (ChatResult.err e) ir).outcome = errOutcome e := by
  unfold runTurn
  by_cases h1 : inp.option == "1"
  · simp only [h1, if_true]
    exact runOption1_err st inp e
  · by_cases h2 : inp.option == "2"
    · simp only [h1, h2, if_true, Bool.false_eq_true, if_false]
      exact runOption2_err st inp e
    · by_cases h3 : inp.option == "3"
      · simp only [h1, h2, h3, if_true, Bool.false_eq_true, if_false]
        exact runOption3_err st inp e ir
      · simp only [h1, h2, h3, Bool.false_eq_true, if_false]
        exact Or.inl trivial

/-- Claim C2 counterexample: an option-3 turn whose image-analysis remote
call raises an invalid-argument API exception does not exit the process:
the exception is swallowed inside `analyze_image_with_gemini` and the turn
ends back at the menu, contradicting the claim that every non-deadline
remote exception in the three menu options exits with status 1. -/
theorem c2_counterexample :
    (runTurn initChatState ⟨"3", "", "pizza", "", "", "d", "img.png"⟩
        (ChatResult.ok "resp")
        (ImageResult.apiError ApiError.invalidArgument)).imageCalled = true ∧
    (runTurn initChatState ⟨"3", "", "pizza", "", "", "d", "img.png"⟩
        (ChatResult.ok "resp")
        (ImageResult.apiError ApiError.invalidArgument)).outcome =
      TurnOutcome.continueLoop :=
  ⟨rfl, rfl⟩

/-- Claim C2 as amended: for every main-chat submission in any of the
three menu options, a deadline-exceeded exception returns control to the
menu without exiting and every other handled kind exits with status 1;
an API exception raised by the image-analysis submission, of any kind, is
swallowed inside the sub-operation, so the turn does not exit because of
it (with a successful main call the turn returns to the menu). -/
theorem c2_error_mapping (st : ChatState) (inp : TurnInput)
    (ir : ImageResult) :
    (∀ e q, (runTurn st inp (ChatResult.err e) ir).sentQuery = some q →
        (runTurn st inp (ChatResult.err e) ir).outcome = errOutcome e) ∧
    errOutcome ApiError.deadlineExceeded = TurnOutcome.continueLoop ∧
    (∀ e, (e == ApiError.deadlineExceeded) = false →
        errOutcome e = TurnOutcome.exit 1) ∧
    (∀ t e, (runTurn st inp (ChatResult.ok t)
        (ImageResult.apiError e)).outcome = TurnOutcome.continueLoop) := by
  refine ⟨?_, rfl, ?_, ?_⟩
  · intro e q hq
    rcases runTurn_err st inp e ir with h | h
    · rw [hq] at h
      cases h
    · exact h
  · intro e he
    cases e <;> first | rfl | cases he
  · intro t e
    unfold runTurn
    by_cases h1 : inp.option == "1"
    · simp only [h1, if_true]
      simp only [runOption1]
      split
      · rfl
      · rfl
    · by_cases h2 : inp.option == "2"
      · simp only [h1, h2, if_true, Bool.false_eq_true, if_false]
        simp only [runOption2]
        split
        · rfl
        · rfl
      · by_cases h3 : inp.option == "3"
        · simp only [h1, h2, h3, if_true, Bool.false_eq_true, if_false]
          simp only [runOption3]
          split
          · rfl
          · rfl
        · simp only [h1, h2, h3, Bool.false_eq_true, if_false]

/-- Witness for the amended C2: a concrete option-1 turn raising
`NotFound` exits with status 1. -/
theorem c2_error_mapping_witness :
    (runTurn initChatState ⟨"1", "", "pizza", "", "", "", ""⟩
        (ChatResult.err ApiError.notFound)
        ImageResult.otherError).outcome = TurnOutcome.exit 1 := by
  have h := (c2_error_mapping initChatState ⟨"1", "", "pizza", "", "", "", ""⟩
      ImageResult.otherError).1 ApiError.notFound (buildQuery1 "pizza") rfl
  exact h

/-- Claim C6: at startup, a missing `keys.json`, an unparseable
`keys.json`, and a `keys.json` without the API-key field each terminate
with exit code 1 and a distinct message; the missing-file message names
`keys.json` and the missing-key message names `GEMINI_API_KEY`. -/
theorem c6_config_startup_errors :
    init_genai ConfigLoad.fileNotFound = InitResult.exitWith 1 [msgMissingFile] ∧
    init_genai ConfigLoad.parseError = InitResult.exitWith 1 [msgParseError] ∧
    (∀ gm ss gc : Option String,
      init_genai (ConfigLoad.parsed ⟨none, gm, ss, gc⟩) =
        InitResult.exitWith 1 [msgMissingKey "GEMINI_API_KEY"]) ∧
    (∃ a b : String, msgMissingFile = a ++ "keys.json" ++ b) ∧
    (∃ a b : String,
      msgMissingKey "GEMINI_API_KEY" = a ++ "GEMINI_API_KEY" ++ b) ∧
    (msgMissingFile == msgParseError) = false ∧
    (msgMissingFile == msgMissingKey "GEMINI_API_KEY") = false ∧
    (msgParseError == msgMissingKey "GEMINI_API_KEY") = false := by
  refine ⟨rfl, rfl, fun gm ss gc => rfl, ?_, ?_, by decide, by decide, by decide⟩
  · exact ⟨"Could not find the configuration file \x27",
      "\x27. Ensure it exists", by decide⟩
  · exact ⟨"Error: Missing key \x27",
      "\x27 in \x27keys.json\x27 file.", by decide⟩

/-- Claim C9: a present, well-formed `keys.json` whose API-key field still
holds the literal placeholder makes startup print the three
key-obtaining instruction lines and exit with status 1; no model object is
built, so no remote service is ever contacted. -/
theorem c9_placeholder_key_exits (gm ss gc : Option String) :
    init_genai (ConfigLoad.parsed ⟨some placeholderKey, gm, ss, gc⟩) =
      InitResult.exitWith 1 placeholderMsgs :=
  rfl

/-- Bool-level invariant of C10: `last_food_item` is `None` or a
non-empty, non-whitespace-only string. -/
def validLastFood : Option String → Bool
  | none => true
  | some s => !(emptyOrSpace s)

/-- Claim C10: the invariant `validLastFood` holds initially and is
preserved by every turn (option 3 validates the food name before the only
assignment), and consequently a turn reusing `last_food_item` never
submits an empty food name: it submits the query built from the stored
name. -/
theorem c10_last_food_item_valid (st : ChatState) (inp : TurnInput)
    (cr : ChatResult) (ir : ImageResult)
    (h : validLastFood st.lastFoodItem = true) :
    validLastFood initChatState.lastFoodItem = true ∧
    validLastFood (runTurn st inp cr ir).lastFoodItem = true ∧
    (∀ f, st.lastFoodItem = some f → inp.option = "1" →
      pyLower inp.useLast = "yes" →
      (runTurn st inp cr ir).sentQuery = some (buildQuery1 f)) := by
  refine ⟨rfl, ?_, ?_⟩
  · by_cases h3 : inp.option = "3"
    · unfold runTurn
      simp only [h3]
      norm_num
      unfold runOption3
      by_cases hv : emptyOrSpace inp.foodInput
      · simp [hv, h]
      · cases cr
        · simp [hv, validLastFood]
        · simpa [hv, validLastFood] using h
    · rcases runTurn_ne3 st inp cr ir h3 with heq | heq | heq <;> rw [heq]
      · rw [(runOption1_frame st inp cr).1]
        exact h
      · rw [(runOption2_frame st inp cr).1]
        exact h
      · exact h
  · intro f hf h1 hy
    have hvf : emptyOrSpace f = false := by
      rw [hf] at h
      simpa [validLastFood] using h
    have hne : (f != "") = true := by
      unfold emptyOrSpace at hvf
      simp only [Bool.or_eq_false_iff] at hvf
      simpa using hvf.1
    have hres : resolveReuse st.lastFoodItem inp.useLast inp.foodInput = f := by
      unfold resolveReuse
      simp [hf, pyTruthy, hne, hy]
    unfold runTurn
    simp only [h1]
    norm_num
    unfold runOption1
    rw [hres]
    cases cr <;> simp [hvf]

/-- Witness for C10: a concrete option-3 success stores "pizza", which is
valid, and a subsequent reuse turn submits the stored query. -/
theorem c10_last_food_item_valid_witness :
    validLastFood (runTurn initChatState ⟨"3", "", "pizza", "", "", "d", ""⟩
        (ChatResult.ok "resp") ImageResult.otherError).lastFoodItem = true ∧
    (runTurn ⟨some "pizza", some "d", []⟩ ⟨"1", "yes", "", "", "", "", ""⟩
        (ChatResult.ok "r2") ImageResult.otherError).sentQuery =
      some (buildQuery1 "pizza") :=
  ⟨(c10_last_food_item_valid initChatState ⟨"3", "", "pizza", "", "", "d", ""⟩
      (ChatResult.ok "resp") ImageResult.otherError rfl).2.1,
   (c10_last_food_item_valid ⟨some "pizza", some "d", []⟩
      ⟨"1", "yes", "", "", "", "", ""⟩
      (ChatResult.ok "r2") ImageResult.otherError (by decide)).2.2
      "pizza" rfl rfl rfl⟩

/-- A turn creates an extra chat session exactly when option 3 passes
validation and an image path was supplied (line 91 of main.py). -/
def createsImageSession (inp : TurnInput) : Bool :=
  inp.option == "3" && !(emptyOrSpace inp.foodInput) && (inp.imageInput != "")

/-- The main chat session's history only grows across a turn. -/
theorem runTurn_history_mono (st : ChatState) (inp : TurnInput)
    (cr : ChatResult) (ir : ImageResult) :
    ∃ suf, (runTurn st inp cr ir).history = st.history ++ suf := by
  unfold runTurn runOption1 runOption2 runOption3
  by_cases h1 : inp.option == "1" <;>
    by_cases h2 : inp.option == "2" <;>
      by_cases h3 : inp.option == "3" <;>
        simp only [h1, h2, h3, if_true, Bool.false_eq_true, if_false] <;>
          cases cr <;>
            (try split) <;>
              first
                | exact ⟨[], (List.append_nil _).symm⟩
                | exact ⟨_, rfl⟩

/-- Sessions created during a turn, characterized by the inputs. -/
theorem runTurn_sessions (st : ChatState) (inp : TurnInput)
    (cr : ChatResult) (ir : ImageResult) :
    (runTurn st inp cr ir).sessionsCreated =
      if createsImageSession inp then 1 else 0 := by
  unfold createsImageSession
  unfold runTurn runOption1 runOption2 runOption3
  by_cases h1 : inp.option == "1" <;>
    by_cases h2 : inp.option == "2" <;>
      by_cases h3 : inp.option == "3" <;>
        simp only [h1, h2, h3, if_true, Bool.false_eq_true, if_false] <;>
          cases cr <;>
            (try split) <;>
              simp_all

/-- Claim C8 counterexample: after a single option-3 turn carrying an
image path (with both remote calls succeeding), the program has created
two chat sessions, not one — `analyze_image_with_gemini` starts a fresh
session (line 91) — and the image query is absent from the main session's
history, which holds only the analysis query and its response. -/
theorem c8_counterexample :
    (runProgram [⟨⟨"3", "", "pizza", "", "", "d", "img.png"⟩,
        ChatResult.ok "resp", ImageResult.ok "tomato"⟩]).sessions = 2 ∧
    (runProgram [⟨⟨"3", "", "pizza", "", "", "d", "img.png"⟩,
        ChatResult.ok "resp", ImageResult.ok "tomato"⟩]).chat.history =
      [buildQuery3 "pizza" "d tomato", "resp"] :=
  ⟨rfl, rfl⟩

/-- Claim C8 as amended: one main chat session exists at program start
(the loop state starts with a session count of one); a turn additionally
creates exactly one fresh session when option 3 passes validation with an
image path supplied, and no session otherwise; the main session's history
grows monotonically across every turn and every loop step — it is never
trimmed or reset — and only main-chat queries (not image queries) are
appended to it. -/
theorem c8_sessions_history (st : ChatState) (inp : TurnInput)
    (cr : ChatResult) (ir : ImageResult) (ls : LoopState) (env : TurnEnv) :
    initLoopState.sessions = 1 ∧
    runProgram [] = initLoopState ∧
    (runTurn st inp cr ir).sessionsCreated =
      (if createsImageSession inp then 1 else 0) ∧
    (∃ suf, (runTurn st inp cr ir).history = st.history ++ suf) ∧
    (∃ suf, (stepLoop ls env).chat.history = ls.chat.history ++ suf) ∧
    ls.sessions ≤ (stepLoop ls env).sessions := by
  refine ⟨rfl, rfl, runTurn_sessions st inp cr ir,
    runTurn_history_mono st inp cr ir, ?_, ?_⟩
  · unfold stepLoop
    cases hex : ls.exited
    · exact runTurn_history_mono ls.chat env.inp env.chatRes env.imgRes
    · exact ⟨[], by simp⟩
  · unfold stepLoop
    cases hex : ls.exited <;> simp

end FoodAI
